import Mathlib

/-!
Verification development for the graphflix movie-recommendation backend.

The Python sources (`app.py`, `chat_agent.py`, `recommendation_engine.py`,
`graph_analytics.py`) are shallowly embedded below:

* Python strings are `List Char` (`Str`);
* AQL queries built by the code are embedded by their documented semantics
  over an explicit in-memory database (`GraphDb`), with AQL `UNION` being
  list concatenation (it does not deduplicate; `UNION_DISTINCT` does),
  `RETURN DISTINCT` deduplicating whole documents, traversals using the
  default `uniqueEdges: "path"` option, and `SORT` realised as a stable
  sort by the requested keys;
* the external database and language model are oracles whose calls return
  `Except` values, so a raised exception is an `error` and Python
  `try`/`except` blocks are `match`es on that value;
* numbers are `ℚ`/`Nat`/`Int` (ratings, similarities, years are exact).
-/

/-!
Kernel-level evaluation of concrete rational arithmetic is used by the
`decide` proofs below; the arithmetic core of `Rat` is unsealed for it.
-/

unseal Rat.add Rat.mul Rat.inv Rat.sub Nat.gcd

/-- Python strings, modelled as lists of characters. -/
abbrev Str := List Char

/-- Converts a Lean string literal into the character-list representation. -/
def strL (s : String) : Str := s.data

/-- Python `str.lower()`, restricted to the ASCII inputs the router uses. -/
def lowerStr (s : Str) : Str := s.map Char.toLower

/-- Python substring test `needle in hay`. -/
def containsSub : Str → Str → Bool
  | [], needle => needle.isEmpty
  | c :: t, needle => needle.isPrefixOf (c :: t) || containsSub t needle

/-! ## Intent router (`chat_agent.py`, `text_to_aql_to_text` and
`extract_movie_titles`) -/

/-- The fixed alias table of `extract_movie_titles` (`chat_agent.py` lines
85-96), in Python dict insertion order: canonical title paired with its
accepted variations. -/

def commonTitles : List (Str × List Str) :=
  [ (strL "toy story", [strL "toy story", strL "toy stories", strL "toystory", strL "toy storey"]),
    (strL "star wars", [strL "star wars", strL "starwars", strL "star war"]),
    (strL "the matrix", [strL "matrix", strL "the matrix"]),
    (strL "jurassic park", [strL "jurassic park", strL "jurassic"]),
    (strL "pulp fiction", [strL "pulp fiction", strL "pulpfiction"]),
    (strL "the godfather", [strL "godfather", strL "the godfather"]),
    (strL "titanic", [strL "titanic"]),
    (strL "inception", [strL "inception"]),
    (strL "avatar", [strL "avatar"]),
    (strL "the dark knight", [strL "dark knight", strL "the dark knight", strL "batman dark knight"]) ]

/-- `extract_movie_titles` (`chat_agent.py` lines 83-106): all canonical
titles one of whose variations occurs in the lower-cased query, in table
order. -/
def extract_movie_titles (query : Str) : List Str :=
  let ql := lowerStr query
  (commonTitles.filter (fun p => p.2.any (fun v => containsSub ql v))).map (·.1)

/-- The similarity keywords of the router (`chat_agent.py` line 24). -/
def simKeywords : List Str := [strL "similar", strL "like", strL "related"]

/-- The genre keywords that trigger the genre branch (line 27). -/
def genreTriggerKeys : List Str :=
  [strL "comedy", strL "action", strL "drama", strL "horror", strL "sci-fi"]

/-- The genre keywords collected once the genre branch fires (line 29). -/
def genreCollectKeys : List Str :=
  [strL "comedy", strL "action", strL "drama", strL "horror", strL "sci-fi",
   strL "thriller", strL "romance", strL "animation"]

/-- The period keywords that trigger the year branch (line 34). -/
def periodKeys : List Str := [strL "90s", strL "80s", strL "2000s", strL "1990"]

/-- Python regex word character (`\w`): letter, digit or underscore. -/
def isWordChar (c : Char) : Bool := c.isAlpha || c.isDigit || c == '_'

/-- The trailing `\b` of the year regex: the next character, if any, must
not be a word character (every alternative ends in a word character). -/
def boundaryOk : Str → Bool
  | [] => true
  | c :: _ => !isWordChar c

/-- One decade alternative `ab\d0s` of the regex `19\d0s|20\d0s|\d{4}`,
together with the trailing `\b`. -/
def altDecade (a b : Char) (s : Str) : Option (Str × Str) :=
  match s with
  | c1 :: c2 :: d :: c4 :: c5 :: rest =>
    if c1 == a && c2 == b && d.isDigit && c4 == '0' && c5 == 's' && boundaryOk rest then
      some ([c1, c2, d, c4, c5], rest)
    else none
  | _ => none

/-- The `\d{4}` alternative of the year regex, with the trailing `\b`. -/
def altYear4 (s : Str) : Option (Str × Str) :=
  match s with
  | d1 :: d2 :: d3 :: d4 :: rest =>
    if d1.isDigit && d2.isDigit && d3.isDigit && d4.isDigit && boundaryOk rest then
      some ([d1, d2, d3, d4], rest)
    else none
  | _ => none

/-- Attempts the three alternatives of `19\d0s|20\d0s|\d{4}` in regex
order at the current position. -/
def matchYearAlts (s : Str) : Option (Str × Str) :=
  match altDecade '1' '9' s with
  | some r => some r
  | none =>
    match altDecade '2' '0' s with
    | some r => some r
    | none => altYear4 s

/-- Left-to-right non-overlapping scan of `re.findall(r'\b(19\d0s|20\d0s|\d{4})\b', query)`
(`chat_agent.py` line 35). `prevW` records whether the previous character
was a word character (the leading `\b` fails when it is, since every
alternative starts with a digit); the fuel is the remaining length, and
every step consumes at least one character. -/
def findYears : Nat → Bool → Str → List Str
  | 0, _, _ => []
  | _, _, [] => []
  | f + 1, prevW, c :: rest =>
    if prevW then findYears f (isWordChar c) rest
    else
      match matchYearAlts (c :: rest) with
      | some (cap, r) => cap :: findYears f true r
      | none => findYears f (isWordChar c) rest

/-- All year/decade tokens found in the query. -/
def findallYears (q : Str) : List Str := findYears q.length false q

/-- The intent the router dispatches to. -/
inductive Intent where
  | similarity (title : Str)
  | genre (g : Str) (topRated : Bool)
  | year (token : Str)
  | generic
deriving DecidableEq, Repr

/-- The dispatch decision of `text_to_aql_to_text` (`chat_agent.py` lines
16-39): similarity keyword plus known title first, then genre keyword,
then period keyword plus regex token, else the generic path. -/
def route (query : Str) : Intent :=
  let lq := lowerStr query
  let titles := extract_movie_titles query
  if simKeywords.any (fun w => containsSub lq w) && !titles.isEmpty then
    .similarity (titles.headD [])
  else if genreTriggerKeys.any (fun g => containsSub lq g) then
    match genreCollectKeys.filter (fun g => containsSub lq g) with
    | g :: _ => .genre g (containsSub lq (strL "top") || containsSub lq (strL "best"))
    | [] => .generic
  else if periodKeys.any (fun p => containsSub lq p) then
    match findallYears query with
    | y :: _ => .year y
    | [] => .generic
  else .generic

/-! ## Year-token parsing (`chat_agent.py`, `handle_year_query` lines
337-348) -/

/-- Python `int` on a digit string; `none` models the `ValueError` raised
on non-digit input (caught by the handler). -/

def parseNat? (s : Str) : Option Nat :=
  if s.isEmpty || s.any (fun c => !c.isDigit) then none
  else some (s.foldl (fun acc c => acc * 10 + (c.toNat - 48)) 0)

/-- The year-range computed by `handle_year_query`: a 4-character token is
a single-year range, anything else takes its first four characters as the
decade start and spans nine further years. -/
def parseYearRange (year_str : Str) : Option (Nat × Nat) :=
  if year_str.length = 4 then
    (parseNat? year_str).map (fun y => (y, y))
  else
    (parseNat? (year_str.take 4)).map (fun s => (s, s + 9))

/-! ## Graph database model (collections `MovieLens_node` and
`MovieLens_node_to_MovieLens_node`) shared by `recommendation_engine.py`
and `graph_analytics.py` -/

/-- A document of the node collection; every attribute other than `_id`
is optional, matching the schema invariant of the data model. -/

structure RNode where
  _id : Str
  type : Option Str := none
  title : Option Str := none
  name : Option Str := none
  year : Option Int := none
  popularity : Option ℚ := none
  original_id : Option Str := none
deriving DecidableEq, Repr

/-- A document of the edge collection. -/
structure REdge where
  _from : Str
  _to : Str
  type : Option Str := none
  similarity : Option ℚ := none
  rating : Option ℚ := none
deriving DecidableEq, Repr

/-- The in-memory database the embedded AQL queries run against. -/
structure GraphDb where
  nodes : List RNode
  edges : List REdge
deriving DecidableEq, Repr

/-- Document lookup by `_id`. -/
def nodeById (db : GraphDb) (id : Str) : Option RNode :=
  db.nodes.find? (fun n => n._id == id)

/-- Identifier normalisation: prefix with `movie_` unless already
prefixed (`recommendation_engine.py` lines 18-19, `graph_analytics.py`
lines 19-20). -/
def normalizeMovieId (movie_id : Str) : Str :=
  if (strL "movie_").isPrefixOf movie_id then movie_id else strL "movie_" ++ movie_id

/-- Python `movie_id.replace("movie_", "")`: removes every occurrence of
the prefix string. -/
def stripMovieAll (s : Str) : Str :=
  match s with
  | [] => []
  | c :: rest =>
    if (strL "movie_").isPrefixOf (c :: rest) then stripMovieAll (rest.drop 5)
    else c :: stripMovieAll rest
termination_by s.length
decreasing_by
  · simp only [List.length_drop, List.length_cons]
    omega
  · simp only [List.length_cons]
    omega

/-- The movie-lookup query (`FILTER movie._id == id OR movie.original_id
== stripped LIMIT 1`, `recommendation_engine.py` lines 22-27 and
`graph_analytics.py` lines 23-28). -/
def findMovie (db : GraphDb) (movie_id : Str) : Option RNode :=
  db.nodes.find? (fun n =>
    n._id == movie_id || n.original_id == some (stripMovieAll movie_id))

/-- Decimal digits of a natural number (for message strings). -/
def natToStr (n : Nat) : Str := (toString n).data

/-- Genre `_id`s attached to a movie via `belongs_to` edges whose target
is a `genre` node (`recommendation_engine.py` lines 93-97 and 115-119). -/
def belongsGenreIds (db : GraphDb) (mid : Str) : List Str :=
  db.edges.filterMap (fun e =>
    if e._from == mid && e.type == some (strL "belongs_to") then
      match nodeById db e._to with
      | some v => if v.type == some (strL "genre") then some v._id else none
      | none => none
    else none)

/-- The formatted recommendation entry returned by the engine. -/
structure MovieRec where
  id : Str
  original_id : Option Str
  title : Str
  year : Option Int
  similarity : ℚ
  common_genre_count : Option Nat := none
  reason : Str
deriving DecidableEq, Repr

/-- A row of the genre-overlap query before formatting
(`recommendation_engine.py` lines 112-135): candidate movie, its
similarity and the shared-genre count. -/
structure GenreCand where
  movie : RNode
  similarity : ℚ
  common_genre_count : Nat
deriving DecidableEq, Repr

/-- AQL numeric comparison `a >= b` on a possibly-`null` left operand:
`null` compares below every number. -/
def aqlNumGeB (a b : Option ℚ) : Bool :=
  match a, b with
  | none, none => true
  | none, some _ => false
  | some _, none => true
  | some x, some y => decide (y ≤ x)

/-- The sort order `SORT similarity DESC, movie.popularity DESC` of the
genre-overlap query: `rankRel a b` holds when `a` may precede `b`. -/
def rankRel (a b : GenreCand) : Prop :=
  b.similarity < a.similarity ∨
    (a.similarity = b.similarity ∧
      aqlNumGeB a.movie.popularity b.movie.popularity = true)

instance : DecidableRel rankRel := fun a b => by
  unfold rankRel
  infer_instance

instance : IsTotal GenreCand rankRel := by
  constructor
  intro a b
  have htot : ∀ x y : Option ℚ, aqlNumGeB x y = true ∨ aqlNumGeB y x = true := by
    intro x y
    rcases x with _ | x <;> rcases y with _ | y <;> simp [aqlNumGeB]
    exact le_total y x
  rcases lt_trichotomy a.similarity b.similarity with h | h | h
  · exact Or.inr (Or.inl h)
  · rcases htot a.movie.popularity b.movie.popularity with hp | hp
    · exact Or.inl (Or.inr ⟨h, hp⟩)
    · exact Or.inr (Or.inr ⟨h.symm, hp⟩)
  · exact Or.inl (Or.inl h)

instance : IsTrans GenreCand rankRel := by
  constructor
  intro a b c hab hbc
  have htr : ∀ x y z : Option ℚ, aqlNumGeB x y = true → aqlNumGeB y z = true →
      aqlNumGeB x z = true := by
    intro x y z h1 h2
    rcases x with _ | x <;> rcases y with _ | y <;> rcases z with _ | z <;>
      simp [aqlNumGeB] at *
    exact le_trans h2 h1
  rcases hab with h1 | ⟨e1, p1⟩
  · rcases hbc with h2 | ⟨e2, _⟩
    · exact Or.inl (lt_trans h2 h1)
    · exact Or.inl (e2 ▸ h1)
  · rcases hbc with h2 | ⟨e2, p2⟩
    · exact Or.inl (e1 ▸ h2)
    · exact Or.inr ⟨e1.trans e2, htr _ _ _ p1 p2⟩

/-- The candidate rows of the genre-overlap query
(`recommendation_engine.py` lines 112-135): every other movie sharing at
least one genre with the source, its similarity being
`common / LENGTH(UNION(movie_genres, source_genres))`; AQL `UNION`
concatenates without removing duplicates, so the denominator is the sum
of the two list lengths.  Rows below the 0.3 floor are filtered out. -/
def genreCands (db : GraphDb) (mid : Str) (sourceGenres : List Str) : List GenreCand :=
  db.nodes.filterMap (fun m =>
    if m.type == some (strL "movie") && m._id != mid then
      let mg := belongsGenreIds db m._id
      let common := (mg.filter (fun g => sourceGenres.contains g)).length
      if 0 < common then
        let sim : ℚ := (common : ℚ) / ((mg.length + sourceGenres.length : Nat) : ℚ)
        if 3 / 10 ≤ sim then some ⟨m, sim, common⟩ else none
      else none
    else none)

/-- Formatting of one genre-overlap row (`recommendation_engine.py`
lines 140-151). -/
def fmtGenreRec (c : GenreCand) : MovieRec :=
  { id := c.movie._id, original_id := c.movie.original_id,
    title := c.movie.title.getD (strL "Unknown"), year := c.movie.year,
    similarity := c.similarity, common_genre_count := some c.common_genre_count,
    reason := strL "Shares " ++ natToStr c.common_genre_count ++ strL " genres" }

/-- `get_recommendations_by_genre` (`recommendation_engine.py` lines
77-153): resolve the source movie by `_id`, collect its genres, rank the
candidates by similarity then popularity, truncate and format. -/
def get_recommendations_by_genre (db : GraphDb) (movie_id : Str) (limit : Nat) : List MovieRec :=
  match (db.nodes.filter (fun n => n._id == movie_id)).head? with
  | none => []
  | some _ =>
    if (belongsGenreIds db movie_id).isEmpty then []
    else
      ((List.insertionSort rankRel
          (genreCands db movie_id (belongsGenreIds db movie_id))).take limit).map
        fmtGenreRec

/-- A row of the direct-similarity query before formatting
(`recommendation_engine.py` lines 37-54). -/
structure SimCand where
  movie : RNode
  similarity : ℚ
deriving DecidableEq, Repr

/-- The sort order `SORT e.similarity DESC` of the direct-similarity
query: `simDescRel a b` holds when `a` may precede `b`.  The query states
no further key, so ties are left in traversal order. -/
def simDescRel (a b : SimCand) : Prop := b.similarity ≤ a.similarity

instance : DecidableRel simDescRel := fun a b => by
  unfold simDescRel
  infer_instance

instance : IsTotal SimCand simDescRel :=
  ⟨fun a b => le_total b.similarity a.similarity⟩

instance : IsTrans SimCand simDescRel :=
  ⟨fun _ _ _ h1 h2 => le_trans h2 h1⟩

/-- The rows of the direct-similarity traversal
(`recommendation_engine.py` lines 37-54): outgoing `similar_to` edges of
the source whose similarity meets the threshold (a `null` similarity
compares below every number, so such edges are dropped). -/
def directSimilarCands (db : GraphDb) (sourceId : Str) (threshold : ℚ) : List SimCand :=
  db.edges.filterMap (fun e =>
    if e._from == sourceId && e.type == some (strL "similar_to") then
      match e.similarity with
      | some s =>
        if threshold ≤ s then
          match nodeById db e._to with
          | some v => some ⟨v, s⟩
          | none => none
        else none
      | none => none
    else none)

/-- Formatting of one direct-similarity row (`recommendation_engine.py`
lines 60-72). -/
def fmtSimRec (c : SimCand) : MovieRec :=
  { id := c.movie._id, original_id := c.movie.original_id,
    title := c.movie.title.getD (strL "Unknown"), year := c.movie.year,
    similarity := c.similarity, reason := strL "Direct similarity" }

/-- `find_similar_movies` (`recommendation_engine.py` lines 4-75):
normalise the id, resolve the source movie (canonical or legacy id),
take the threshold-filtered `similar_to` neighbours sorted by similarity,
and fall back to the genre-overlap recommendations when none remain. -/
def find_similar_movies (db : GraphDb) (movie_id : Str) (threshold : ℚ)
    (limit : Nat) : List MovieRec :=
  match findMovie db (normalizeMovieId movie_id) with
  | none => []
  | some source =>
    if ((List.insertionSort simDescRel
        (directSimilarCands db source._id threshold)).take limit).isEmpty then
      get_recommendations_by_genre db source._id limit
    else
      ((List.insertionSort simDescRel
        (directSimilarCands db source._id threshold)).take limit).map fmtSimRec

/-- Modelled from the spec's words, for comparison with the code in claim
C2: Jaccard similarity of two genre sets,
`|intersection| / |union of both sets|`. -/
def jaccardSpec (A B : List Str) : ℚ :=
  ((A.dedup.filter (fun g => B.contains g)).length : ℚ) /
    (((A ++ B).dedup.length : Nat) : ℚ)

/-- A three-node database: two movies sharing their single genre. -/
def exDb2 : GraphDb :=
  { nodes := [ { _id := strL "movie_1", type := some (strL "movie") },
               { _id := strL "movie_2", type := some (strL "movie") },
               { _id := strL "genre_1", type := some (strL "genre") } ],
    edges := [ { _from := strL "movie_1", _to := strL "genre_1",
                 type := some (strL "belongs_to") },
               { _from := strL "movie_2", _to := strL "genre_1",
                 type := some (strL "belongs_to") } ] }

/-- A database whose source movie has two `similar_to` neighbours with the
same similarity 1/2 and popularities 1 (listed first) and 9. -/
def exDb7 : GraphDb :=
  { nodes := [ { _id := strL "movie_1", type := some (strL "movie") },
               { _id := strL "movie_2", type := some (strL "movie"),
                 popularity := some 1 },
               { _id := strL "movie_3", type := some (strL "movie"),
                 popularity := some 9 } ],
    edges := [ { _from := strL "movie_1", _to := strL "movie_2",
                 type := some (strL "similar_to"), similarity := some (1 / 2) },
               { _from := strL "movie_1", _to := strL "movie_3",
                 type := some (strL "similar_to"), similarity := some (1 / 2) } ] }

/-! ## Graph visualisation (`graph_analytics.py`, `get_graph_data`) -/

/-- A node of the visualisation output (`graph_analytics.py` lines
73-104); the central node carries no distance. -/

structure ViewNode where
  id : Str
  label : Str
  type : Str
  year : Option Int
  group : Str
  distance : Option Nat
deriving DecidableEq, Repr

/-- A link of the visualisation output (lines 107-124). -/
structure ViewLink where
  source : Str
  target : Str
  type : Str
  weight : ℚ
deriving DecidableEq, Repr

/-- The visualisation payload `{nodes, links}`. -/
structure GraphView where
  nodes : List ViewNode
  links : List ViewLink
deriving DecidableEq, Repr

/-- The endpoint a traversal step in `ANY` direction reaches over an edge
incident to `v`. -/
def adjacentEnd (v : Str) (e : REdge) : Option Str :=
  if e._from == v then some e._to
  else if e._to == v then some e._from
  else none

/-- The traversal `FOR v, e, p IN 1..depth ANY central ...`
(`graph_analytics.py` lines 38-64) with the default
`uniqueEdges: "path"` option: enumerates every path of length 1..fuel
from `v` that repeats no edge, emitting at each step the reached node,
its path length (`LENGTH(p.edges)`, counted from the centre as `d + 1`)
and the edge taken.  Dangling edges (target document missing) are
skipped. -/
def walk (db : GraphDb) (used : List REdge) (v : Str) (d : Nat) :
    Nat → List (RNode × Nat × REdge)
  | 0 => []
  | f + 1 =>
    db.edges.flatMap (fun e =>
      if used.contains e then []
      else
        match adjacentEnd v e with
        | none => []
        | some w =>
          match nodeById db w with
          | none => []
          | some n => (n, d + 1, e) :: walk db (e :: used) w (d + 1) f)

/-- `RETURN DISTINCT`: removes duplicate documents keeping the first
occurrence (`seen` accumulates the documents already emitted). -/
def dedupFirstAux {α : Type} [BEq α] (seen : List α) : List α → List α
  | [] => []
  | a :: t => if seen.contains a then dedupFirstAux seen t else a :: dedupFirstAux (a :: seen) t

/-- `RETURN DISTINCT` over a whole result list. -/
def dedupFirst {α : Type} [BEq α] (l : List α) : List α := dedupFirstAux [] l

/-- Label resolution by node type (`graph_analytics.py` lines 87-95). -/
def nodeLabel (n : RNode) : Str :=
  if n.type == some (strL "movie") then n.title.getD n._id
  else if n.type == some (strL "genre") then n.name.getD n._id
  else if n.type == some (strL "tag") then n.name.getD n._id
  else n._id

/-- Link weight derivation (`graph_analytics.py` lines 109-117):
`similar_to` edges carry their similarity with default 0.5, `rated` edges
carry rating/5 with the rating defaulting to 3, every other type weighs
1.0. -/
def linkWeight (e : REdge) : ℚ :=
  if e.type.getD (strL "unknown") == strL "similar_to" then e.similarity.getD (1 / 2)
  else if e.type.getD (strL "unknown") == strL "rated" then (e.rating.getD 3) / 5
  else 1

/-- The central node's visualisation entry (lines 73-81): group
"central", no distance field. -/
def centralViewNode (central : RNode) : ViewNode :=
  { id := central._id, label := central.title.getD central._id,
    type := central.type.getD (strL "unknown"), year := central.year,
    group := strL "central", distance := none }

/-- A traversed node's visualisation entry (lines 83-104): group equals
the node type, annotated with the traversal distance. -/
def fmtTravNode (p : RNode × Nat) : ViewNode :=
  { id := p.1._id, label := nodeLabel p.1, type := p.1.type.getD (strL "unknown"),
    year := if p.1.type == some (strL "movie") then p.1.year else none,
    group := p.1.type.getD (strL "unknown"), distance := some p.2 }

/-- A link's visualisation entry (lines 119-124). -/
def fmtLink (e : REdge) : ViewLink :=
  { source := e._from, target := e._to, type := e.type.getD (strL "unknown"),
    weight := linkWeight e }

/-- `get_graph_data` (`graph_analytics.py` lines 6-129): resolve the
centre (canonical or legacy id) and return the empty structure if it is
missing; otherwise emit the central entry first, then the `RETURN
DISTINCT {node, distance}` pairs of the traversal, then the `RETURN
DISTINCT e` edges with derived weights. -/
def get_graph_data (db : GraphDb) (movie_id : Str) (depth : Nat) : GraphView :=
  match findMovie db (normalizeMovieId movie_id) with
  | none => { nodes := [], links := [] }
  | some central =>
    { nodes := centralViewNode central ::
        (dedupFirst ((walk db [] central._id 0 depth).map
          (fun t => (t.1, t.2.1)))).map fmtTravNode,
      links := (dedupFirst ((walk db [] central._id 0 depth).map
        (fun t => t.2.2))).map fmtLink }

/-- A database where node A is adjacent to the centre C and also
reachable from it through B, producing two entries for A at distances 1
and 2. -/
def exDb5 : GraphDb :=
  { nodes := [ { _id := strL "movie_A", type := some (strL "movie") },
               { _id := strL "movie_B", type := some (strL "movie") },
               { _id := strL "movie_C", type := some (strL "movie") } ],
    edges := [ { _from := strL "movie_C", _to := strL "movie_A", type := some (strL "x") },
               { _from := strL "movie_C", _to := strL "movie_B", type := some (strL "x") },
               { _from := strL "movie_B", _to := strL "movie_A", type := some (strL "x") } ] }

/-- HTTP outcome of an endpoint call: a payload, or an error status with
detail (422 validation rejection, or an HTTPException status). -/
inductive HttpResult (α : Type) where
  | ok (payload : α)
  | error (status : Nat) (detail : Str)
deriving DecidableEq, Repr

/-- `GET /graph/{movie_id}` (`app.py` lines 78-85): FastAPI validates
`depth: int = Query(2, ge=1, le=3)` and rejects an out-of-range value
with a 422 validation error before the handler body runs; an in-range
depth is passed to `get_graph_data` unchanged — nothing clamps it.  The
embedded `get_graph_data` is total, so the handler's `except` branch
(HTTP 500) is unreachable in the model. -/
def get_movie_graph (db : GraphDb) (movie_id : Str) (depth : Int) : HttpResult GraphView :=
  if depth < 1 ∨ 3 < depth then .error 422 (strL "Input validation error: depth")
  else .ok (get_graph_data db movie_id depth.toNat)

/-- A database whose only edge is a `similar_to` edge with no similarity
payload, exercising the 0.5 default. -/
def exDb10 : GraphDb :=
  { nodes := [ { _id := strL "movie_1", type := some (strL "movie") },
               { _id := strL "movie_2", type := some (strL "movie") } ],
    edges := [ { _from := strL "movie_1", _to := strL "movie_2",
                 type := some (strL "similar_to") } ] }

/-! ## Analytics endpoint (`app.py`, `run_analytics` lines 100-125) -/

/-- The context object of an analytics request, a dictionary whose used
keys are `limit`, `algorithm`, `source` and `target`; the whole object is
optional (its Pydantic default is `None`). -/

structure AnalyticsCtx where
  limit : Option Int := none
  algorithm : Option Str := none
  source : Option Str := none
  target : Option Str := none
deriving DecidableEq, Repr

/-- The body of a `POST /analytics` request. -/
structure AnalyticsRequest where
  query : Str
  context : Option AnalyticsCtx := none
deriving DecidableEq, Repr

/-- A Python exception value inside the handler: either an
`HTTPException` carrying a status, or any other exception carrying its
stringified message. -/
inductive PyExc where
  | http (status : Nat) (detail : Str)
  | exc (msg : Str)
deriving DecidableEq, Repr

/-- The analytics computations the endpoint dispatches to
(`calculate_pagerank`, `detect_communities`, `find_shortest_path`,
`calculate_centrality`) and the chat agent, taken as oracles here: claim
C4 is decided by the dispatch and exception handling of `run_analytics`
before any of them runs, and their payloads are opaque to it. -/
structure AnalyticsOracle where
  pagerank : Int → Except Str Str
  communities : Str → Except Str Str
  shortestPath : Str → Str → Except Str Str
  centrality : Int → Except Str Str
  chatAgent : Str → Except Str Str

/-- Python truthiness of `context.get(key)` results: `None` and the empty
string are falsy. -/
def truthyOptStr : Option Str → Bool
  | none => false
  | some s => !s.isEmpty

/-- `request.context.get(...)`: raises `AttributeError` when the context
object itself is `None`. -/
def ctxLookup {α : Type} (ctx : Option AnalyticsCtx) (f : AnalyticsCtx → α) :
    Except PyExc α :=
  match ctx with
  | none => .error (.exc (strL "AttributeError: NoneType object has no attribute get"))
  | some c => .ok (f c)

/-- An oracle failure seen as a generic Python exception. -/
def liftExc {α : Type} : Except Str α → Except PyExc α
  | .ok a => .ok a
  | .error e => .error (.exc e)

/-- The `try` body of `run_analytics`: keyword dispatch on the lower-cased
query; the path branch raises `HTTPException(400)` when `source` or
`target` is missing or empty. -/
def analyticsBody (o : AnalyticsOracle) (req : AnalyticsRequest) :
    Except PyExc (Str × Str) :=
  if containsSub (lowerStr req.query) (strL "pagerank") then
    (ctxLookup req.context (fun c => c.limit.getD 10)).bind (fun lim =>
      (liftExc (o.pagerank lim)).map (fun r => (strL "pagerank", r)))
  else if containsSub (lowerStr req.query) (strL "communit") then
    (ctxLookup req.context (fun c => c.algorithm.getD (strL "louvain"))).bind (fun alg =>
      (liftExc (o.communities alg)).map (fun r => (strL "communities", r)))
  else if containsSub (lowerStr req.query) (strL "path") ||
      containsSub (lowerStr req.query) (strL "route") then
    (ctxLookup req.context (fun c => c.source)).bind (fun src =>
      (ctxLookup req.context (fun c => c.target)).bind (fun tgt =>
        if !truthyOptStr src || !truthyOptStr tgt then
          .error (.http 400 (strL "Source and target nodes are required for path analysis"))
        else
          (liftExc (o.shortestPath (src.getD []) (tgt.getD []))).map
            (fun r => (strL "path", r))))
  else if containsSub (lowerStr req.query) (strL "central") then
    (ctxLookup req.context (fun c => c.limit.getD 10)).bind (fun lim =>
      (liftExc (o.centrality lim)).map (fun r => (strL "centrality", r)))
  else
    (liftExc (o.chatAgent req.query)).map (fun r => (strL "general", r))

/-- Python `str(e)` for the exceptions the handler stringifies. -/
def excMessage : PyExc → Str
  | .http s d => natToStr s ++ strL ": " ++ d
  | .exc m => m

/-- `run_analytics` (`app.py` lines 100-125): the blanket
`except Exception` catches EVERY exception raised in the body — including
the `HTTPException(400)` of the path branch, since `HTTPException`
subclasses `Exception` — and re-raises it as an HTTP 500 with the
stringified original exception in the detail. -/
def run_analytics (o : AnalyticsOracle) (req : AnalyticsRequest) :
    HttpResult (Str × Str) :=
  match analyticsBody o req with
  | .ok r => .ok r
  | .error e => .error 500 (strL "Error running analytics: " ++ excMessage e)

/-- An analytics oracle whose every computation succeeds with an empty
payload; the failing input of C4 never reaches it. -/
def oracleUnit : AnalyticsOracle :=
  { pagerank := fun _ => .ok [], communities := fun _ => .ok [],
    shortestPath := fun _ _ => .ok [], centrality := fun _ => .ok [],
    chatAgent := fun _ => .ok [] }

/-! ## Chat pipeline (`chat_agent.py`): oracles, handlers and the
fallback chain -/

namespace Chat

/-- A movie document as returned by the chat agent's movie-lookup
queries. -/
structure MovieDoc where
  _id : Str
  title : Option Str := none
  year : Option Int := none
deriving DecidableEq, Repr

/-- One `{movie, similarity}` entry of the similar-movies traversal. -/
structure SimMovie where
  movie : MovieDoc
  similarity : Option ℚ := none
deriving DecidableEq, Repr

/-- One row of the similar-movies query (`chat_agent.py` lines 134-151). -/
structure SimilarRow where
  source_movie : Option Str := none
  similar_movies : List SimMovie := []
deriving DecidableEq, Repr

/-- One row of the genre-listing query of the genre fallback (lines
181-193). -/
structure GenresRow where
  title : Option Str := none
  genres : List Str := []
deriving DecidableEq, Repr

/-- One row of the genre-overlap query of the genre fallback (lines
199-221). -/
structure GenreSimRow where
  title : Option Str := none
  year : Option Int := none
  common_genre_count : Nat := 0
  movie_genres : List Str := []
deriving DecidableEq, Repr

/-- One row of the top-rated genre query (lines 249-283). -/
structure GenreTopRow where
  title : Option Str := none
  year : Option Int := none
  average_rating : Option ℚ := none
  number_of_ratings : Nat := 0
deriving DecidableEq, Repr

/-- One row of the popularity genre query (lines 285-308). -/
structure GenrePopRow where
  title : Option Str := none
  year : Option Int := none
  genres : List Str := []
deriving DecidableEq, Repr

/-- One row of the year query (lines 350-375). -/
structure YearRow where
  title : Option Str := none
  year : Option Int := none
  popularity : Option ℚ := none
  average_rating : Option ℚ := none
  rating_count : Nat := 0
deriving DecidableEq, Repr

/-- One row of the relaxed year query (lines 392-402). -/
structure YearRelRow where
  title : Option Str := none
  year : Option Int := none
deriving DecidableEq, Repr

/-- One row of the simplified fallback queries (lines 504-542); `genres`
is `none` for the two template variants that return no `genres` field. -/
structure SimpleRow where
  title : Option Str := none
  year : Option Int := none
  genres : Option (List Str) := none
deriving DecidableEq, Repr

/-- The database oracle: one typed entry point per AQL template the chat
agent builds; an `error` models an exception raised by the driver,
carrying the stringified message. -/
structure Db where
  findMovieLike : Str → Except Str (List MovieDoc)
  findMovieFirstWord : Str → Except Str (List MovieDoc)
  similarMovies : Str → Except Str (List SimilarRow)
  movieGenres : Str → Except Str (List GenresRow)
  genreSimilar : Str → List Str → Except Str (List GenreSimRow)
  genreTop : Str → Except Str (List GenreTopRow)
  genrePopular : Str → Except Str (List GenrePopRow)
  yearQuery : Nat → Nat → Except Str (List YearRow)
  yearRelaxed : Nat → Nat → Except Str (List YearRelRow)
  execAql : Str → Except Str (List Str)
  simplePopular : Unit → Except Str (List SimpleRow)
  simpleGenres : Unit → Except Str (List SimpleRow)

/-- The language-model oracle (`llm.invoke`): prompt text to generated
text, or a raised exception. -/
structure Llm where
  invoke : Str → Except Str Str

/-- The fallback stages of the degradation chain (§4.4 of the spec). -/
inductive Stage where
  | genreOverlap
  | yearRelaxed
  | genericSimple
deriving DecidableEq, Repr

/-- Decimal rendering of a rational in a response string (stands in for
Python's fixed-point formatting; no claim depends on the digits). -/
def fmtQ (q : ℚ) : Str := (toString q).data

/-- Rendering of an integer in a response string. -/
def intToStr (i : Int) : Str := (toString i).data

/-- Python `str(x)` of an optional string, rendering `None` literally. -/
def renderOptStr : Option Str → Str
  | none => strL "None"
  | some s => s

/-- Python `f"{year}"` with the `""` default for a missing year. -/
def renderOptInt : Option Int → Str
  | none => []
  | some y => intToStr y

/-- Python truthiness of an optional number (`None` and 0 are falsy). -/
def pyTruthyInt : Option Int → Bool
  | none => false
  | some y => y != 0

/-- Python truthiness of an optional rational. -/
def pyTruthyQ : Option ℚ → Bool
  | none => false
  | some q => q != 0

/-- Python `f" ({year})" if year else ""`. -/
def yearParen (y : Option Int) : Str :=
  if pyTruthyInt y then strL " (" ++ intToStr (y.getD 0) ++ strL ")" else []

/-- Python `", ".join(items)`. -/
def joinComma (l : List Str) : Str := (l.intersperse (strL ", ")).flatten

/-- Python `str.title()` on a single-word genre: capitalise the first
character. -/
def capFirst : Str → Str
  | [] => []
  | c :: t => c.toUpper :: t

/-- `SPLIT(LOWER(title), " ")[0]` of the fuzzy-lookup query (line 124). -/
def firstWordOf (s : Str) : Str := s.takeWhile (fun c => c != ' ')

/-- The handler-level error message of `handle_similar_movies_query`
(line 174). -/
def errSimilarMsg (t : Str) : Str :=
  strL "I had trouble finding movies similar to '" ++ t ++
    strL "'. The database might not have information about this movie or its relationships."

/-- The no-match message of `handle_similar_movies_query` (line 170). -/
def notFoundMsg (t : Str) : Str :=
  strL "I couldn't find information about '" ++ t ++
    strL "'. Could you check the spelling or try another movie title?"

/-- One formatted line of the similar-movies response (lines 161-164);
formatting a `None` similarity raises a `TypeError`, caught by the
handler. -/
def formatSimilarLine (m : SimMovie) : Except Str Str :=
  match m.similarity with
  | none => .error (strL "TypeError: unsupported format string passed to NoneType")
  | some s => .ok (strL "- " ++ m.movie.title.getD (strL "Unnamed movie") ++
      strL " (similarity: " ++ fmtQ s ++ strL ")\n")

/-- The similar-movies response text (lines 157-166). -/
def formatSimilarText (row : SimilarRow) : Except Str Str :=
  (row.similar_movies.mapM formatSimilarLine).map (fun lines =>
    strL "Here are movies similar to " ++ renderOptStr row.source_movie ++
      strL ":\n\n" ++ lines.flatten)

/-- The handler-level error message of `handle_similar_movies_by_genre`
(line 243). -/
def byGenreTroubleMsg (title : Str) : Str :=
  strL "I had trouble finding movies similar to " ++ title ++ strL " by genre matching."

/-- The no-data message of `handle_similar_movies_by_genre` (line 239). -/
def byGenreNotFoundMsg (title : Str) : Str :=
  strL "I couldn't find movies similar to " ++ title ++ strL " based on available data."

/-- One formatted line of the genre-fallback response (lines 228-235). -/
def formatGenreSimLine (r : GenreSimRow) : Str :=
  strL "- " ++ r.title.getD (strL "Unnamed movie") ++ yearParen r.year ++
    strL " - Shares " ++ natToStr r.common_genre_count ++ strL " genres: " ++
    joinComma (r.movie_genres.take 3) ++ strL "\n"

/-- `handle_similar_movies_by_genre` (`chat_agent.py` lines 176-243):
list the source's genres, find other movies sharing at least one, format
them; every failure is caught and turned into a message. -/
def handle_similar_movies_by_genre (db : Db) (source : MovieDoc) : Str :=
  match db.movieGenres source._id with
  | .error _ => byGenreTroubleMsg (source.title.getD (strL "this movie"))
  | .ok rows =>
    match rows with
    | [] => byGenreNotFoundMsg (source.title.getD (strL "this movie"))
    | row :: _ =>
      if row.genres.isEmpty then byGenreNotFoundMsg (source.title.getD (strL "this movie"))
      else
        match db.genreSimilar source._id row.genres with
        | .error _ => byGenreTroubleMsg (source.title.getD (strL "this movie"))
        | .ok sims =>
          if sims.isEmpty then byGenreNotFoundMsg (source.title.getD (strL "this movie"))
          else
            strL "Based on genres similar to " ++
              source.title.getD (strL "this movie") ++ strL " (" ++
              joinComma row.genres ++ strL "), you might enjoy:\n\n" ++
              (sims.map formatGenreSimLine).flatten

/-- `handle_similar_movies_query` (`chat_agent.py` lines 108-174): find
the movie by fuzzy title (falling back to a first-word match), take its
direct `similar_to` neighbours, and fall back to genre-overlap similarity
when there are none; the genre fallback is the `genreOverlap` stage. -/
def handle_similar_movies_query (db : Db) (movie_title : Str) : Str × List Stage :=
  match db.findMovieLike movie_title with
  | .error _ => (errSimilarMsg movie_title, [])
  | .ok first =>
    match (if first.isEmpty then db.findMovieFirstWord (firstWordOf (lowerStr movie_title))
           else .ok first) with
    | .error _ => (errSimilarMsg movie_title, [])
    | .ok movieResult =>
      match movieResult with
      | [] => (notFoundMsg movie_title, [])
      | source :: _ =>
        match db.similarMovies source._id with
        | .error _ => (errSimilarMsg movie_title, [])
        | .ok simRows =>
          match simRows with
          | [] => (handle_similar_movies_by_genre db source, [Stage.genreOverlap])
          | row :: _ =>
            if row.similar_movies.isEmpty then
              (handle_similar_movies_by_genre db source, [Stage.genreOverlap])
            else
              match formatSimilarText row with
              | .ok text => (text, [])
              | .error _ => (errSimilarMsg movie_title, [])

/-- The handler-level error message of `handle_genre_query` (line 335). -/
def genreTroubleMsg (g : Str) : Str :=
  strL "I had trouble finding information about " ++ g ++
    strL " movies. The database might not have information about this genre."

/-- The empty-result message of `handle_genre_query` (line 331). -/
def genreNoneMsg (g : Str) : Str :=
  strL "I couldn't find any " ++ g ++
    strL " movies in the database. Would you like to try a different genre?"

/-- One formatted line of the top-rated genre response (line 323);
formatting a `None` average rating raises a `TypeError`, caught by the
handler. -/
def formatTopLine (r : GenreTopRow) : Except Str Str :=
  match r.average_rating with
  | none => .error (strL "TypeError: unsupported format string passed to NoneType")
  | some a => .ok (strL "- " ++ r.title.getD (strL "Unnamed movie") ++ yearParen r.year ++
      strL " - Rating: " ++ fmtQ a ++ strL " (" ++ natToStr r.number_of_ratings ++
      strL " ratings)\n")

/-- One formatted line of the popularity genre response (lines 325-327). -/
def formatPopLine (r : GenrePopRow) : Str :=
  strL "- " ++ r.title.getD (strL "Unnamed movie") ++ yearParen r.year ++
    (if r.genres.isEmpty then [] else strL " - Genres: " ++ joinComma (r.genres.take 3)) ++
    strL "\n"

/-- `handle_genre_query` (`chat_agent.py` lines 245-335): rating-ranked
variant when "top"/"best" was present, else popularity-ranked; every
failure is caught and turned into a message; no fallback stage exists on
this path. -/
def handle_genre_query (db : Db) (genre : Str) (is_top_rated : Bool) : Str × List Stage :=
  if is_top_rated then
    match db.genreTop genre with
    | .error _ => (genreTroubleMsg genre, [])
    | .ok rows =>
      if rows.isEmpty then (genreNoneMsg genre, [])
      else
        match rows.mapM formatTopLine with
        | .ok lines =>
          (strL "Top rated " ++ capFirst genre ++ strL " movies:\n\n" ++ lines.flatten, [])
        | .error _ => (genreTroubleMsg genre, [])
  else
    match db.genrePopular genre with
    | .error _ => (genreTroubleMsg genre, [])
    | .ok rows =>
      if rows.isEmpty then (genreNoneMsg genre, [])
      else
        (strL "Popular " ++ capFirst genre ++ strL " movies:\n\n" ++
          (rows.map formatPopLine).flatten, [])

/-- The handler-level error message of `handle_year_query` (line 421). -/
def yearTroubleMsg (t : Str) : Str :=
  strL "I had trouble finding movies from " ++ t ++
    strL ". The database might not have comprehensive information for this time period."

/-- The empty-result message of `handle_year_query` (line 417). -/
def yearNoneMsg (p : Str) : Str :=
  strL "I couldn't find any movies from the " ++ p ++ strL " in the database."

/-- One formatted line of the year response (lines 383-388): the rating
suffix appears only when the average rating is truthy. -/
def formatYearLine (r : YearRow) : Str :=
  strL "- " ++ r.title.getD (strL "Unnamed movie") ++ strL " (" ++
    renderOptInt r.year ++ strL ")" ++
    (if pyTruthyQ r.average_rating then strL " - Rating: " ++ fmtQ (r.average_rating.getD 0)
     else []) ++ strL "\n"

/-- One formatted line of the relaxed year response (lines 409-413). -/
def formatYearRelLine (r : YearRelRow) : Str :=
  strL "- " ++ r.title.getD (strL "Unnamed movie") ++ strL " (" ++
    renderOptInt r.year ++ strL ")\n"

/-- `handle_year_query` (`chat_agent.py` lines 337-421): parse the token
into a year range, run the rating-filtered query, and on an empty result
retry once without the rating predicate — the `yearRelaxed` stage; every
failure (including an unparsable token) is caught into a message. -/
def handle_year_query (db : Db) (year_str : Str) : Str × List Stage :=
  match parseYearRange year_str with
  | none => (yearTroubleMsg year_str, [])
  | some (start_year, end_year) =>
    match db.yearQuery start_year end_year with
    | .error _ => (yearTroubleMsg year_str, [])
    | .ok rows =>
      if rows.isEmpty then
        match db.yearRelaxed start_year end_year with
        | .error _ => (yearTroubleMsg year_str, [Stage.yearRelaxed])
        | .ok rrows =>
          if rrows.isEmpty then
            (yearNoneMsg (if year_str.length = 4 then year_str
              else year_str.take 4 ++ strL "s"), [Stage.yearRelaxed])
          else
            (strL "Some movies from the " ++
              (if year_str.length = 4 then year_str else year_str.take 4 ++ strL "s") ++
              strL ":\n\n" ++ (rrows.map formatYearRelLine).flatten, [Stage.yearRelaxed])
      else
        (strL "Popular movies from the " ++
          (if year_str.length = 4 then year_str else year_str.take 4 ++ strL "s") ++
          strL ":\n\n" ++ (rows.map formatYearLine).flatten, [])

/-- The coarse keyword buckets of `handle_empty_results` (lines 495-497). -/
def movieTerms : List Str := [strL "movie", strL "film", strL "watch", strL "cinema"]

/-- Genre bucket terms (line 496). -/
def genreTerms : List Str :=
  [strL "genre", strL "category", strL "type", strL "comedy", strL "action",
   strL "drama", strL "horror"]

/-- Rating bucket terms (line 497). -/
def ratingTerms : List Str :=
  [strL "rate", strL "rating", strL "score", strL "popular", strL "best",
   strL "top", strL "highest"]

/-- One formatted line of the simplified-fallback response (lines
557-567). -/
def formatSimpleLine (hasGenreTerms : Bool) (r : SimpleRow) : Str :=
  if hasGenreTerms && r.genres.isSome then
    strL "- " ++ r.title.getD (strL "Unnamed movie") ++ yearParen r.year ++
      (if (r.genres.getD []).isEmpty then []
       else strL " - Genres: " ++ joinComma ((r.genres.getD []).take 3)) ++ strL "\n"
  else
    strL "- " ++ r.title.getD (strL "Unnamed movie") ++ yearParen r.year ++ strL "\n"

/-- `handle_empty_results` (`chat_agent.py` lines 493-576): classify the
original query by coarse keyword buckets, issue ONE fixed template query
(popular movies, or popular movies with genres), and format or report;
this function issues no further fallback and catches its own failures. -/
def handle_empty_results (db : Db) (query : Str) : Str :=
  match (if movieTerms.any (fun t => containsSub (lowerStr query) t) &&
            ratingTerms.any (fun t => containsSub (lowerStr query) t) then
           db.simplePopular ()
         else if movieTerms.any (fun t => containsSub (lowerStr query) t) &&
            genreTerms.any (fun t => containsSub (lowerStr query) t) then
           db.simpleGenres ()
         else db.simplePopular ()) with
  | .error _ =>
    strL "I'm having trouble retrieving movie information from the database right now. Could you try a simpler query or check back later?"
  | .ok rows =>
    if rows.isEmpty then
      strL "I couldn't find any movies matching your query in the database. Could you try a different search?"
    else
      (if ratingTerms.any (fun t => containsSub (lowerStr query) t) then
         strL "Here are some popular movies you might be interested in:\n\n"
       else if genreTerms.any (fun t => containsSub (lowerStr query) t) then
         strL "Here are some movies with their genres:\n\n"
       else strL "Here are some popular movies from the database:\n\n") ++
      (rows.map (formatSimpleLine
        (genreTerms.any (fun t => containsSub (lowerStr query) t)))).flatten ++
      strL "\nI couldn't find exact matches for your query, so I've shown some popular movies instead."

/-- The suffix of the generated text after the first occurrence of `sep`. -/
def afterFirst (sep : Str) : Str → Str
  | [] => []
  | c :: t => if sep.isPrefixOf (c :: t) then (c :: t).drop sep.length else afterFirst sep t

/-- The prefix of the generated text before the first occurrence of `sep`. -/
def beforeFirst (sep : Str) : Str → Str
  | [] => []
  | c :: t => if sep.isPrefixOf (c :: t) then [] else c :: beforeFirst sep t

/-- Python `str.strip()`. -/
def stripStr (s : Str) : Str :=
  ((s.dropWhile (fun c => c.isWhitespace)).reverse.dropWhile
    (fun c => c.isWhitespace)).reverse

/-- Extraction of the AQL query from the model's fenced output (lines
448-452). -/
def extractAql (raw : Str) : Str :=
  if containsSub raw (strL "```aql") then
    stripStr (beforeFirst (strL "```") (afterFirst (strL "```aql") raw))
  else if containsSub raw (strL "```") then
    stripStr (beforeFirst (strL "```") (afterFirst (strL "```") raw))
  else raw

/-- The user part of the query-generation prompt (line 444; the fixed
system text is omitted — the model is an oracle). -/
def aqlUserPrompt (query : Str) : Str := strL "Create an AQL query for: " ++ query

/-- The result-phrasing prompt (lines 464-475), with the rows spliced in. -/
def formatResultsPrompt (query : Str) (rows : List Str) : Str :=
  strL "Original query: " ++ query ++ strL " Results: " ++ joinComma rows

/-- The final conversational-formatting prompt of `query_movie_graph`
(lines 67-74). -/
def conversationalPrompt (query resp : Str) : Str :=
  strL "Query: " ++ query ++ strL "\n\nRaw response: " ++ resp

/-- The generic could-not-find message (line 491). -/
def couldntFindMsg (q : Str) : Str :=
  strL "I couldn't find the information you requested about " ++ q ++
    strL ". Could you try rephrasing your question?"

/-- `standard_query_processing` (`chat_agent.py` lines 423-491): ask the
model for an AQL query (this call sits OUTSIDE the `try`, so its failure
propagates), execute it, and on an empty result — or on an execution or
formatting failure whose message contains "syntax error" — fall back once
to `handle_empty_results` (the `genericSimple` stage). -/
def standard_query_processing (db : Db) (llm : Llm) (query : Str) :
    Except Str Str × List Stage :=
  match llm.invoke (aqlUserPrompt query) with
  | .error e => (.error e, [])
  | .ok raw =>
    match db.execAql (extractAql (stripStr raw)) with
    | .error e =>
      if containsSub (lowerStr e) (strL "syntax error") then
        (.ok (handle_empty_results db query), [Stage.genericSimple])
      else (.ok (couldntFindMsg query), [])
    | .ok rows =>
      if rows.isEmpty then (.ok (handle_empty_results db query), [Stage.genericSimple])
      else
        match llm.invoke (formatResultsPrompt query rows) with
        | .error e =>
          if containsSub (lowerStr e) (strL "syntax error") then
            (.ok (handle_empty_results db query), [Stage.genericSimple])
          else (.ok (couldntFindMsg query), [])
        | .ok text => (.ok text, [])

/-- `text_to_aql_to_text` (`chat_agent.py` lines 16-39): dispatch on the
routed intent; the specialised handlers never raise (they catch
internally), the generic path may propagate the model failure of its
leading `llm.invoke`. -/
def text_to_aql_to_text (db : Db) (llm : Llm) (query : Str) :
    Except Str Str × List Stage :=
  match route query with
  | .similarity t =>
    (.ok (handle_similar_movies_query db t).1, (handle_similar_movies_query db t).2)
  | .genre g top => (.ok (handle_genre_query db g top).1, (handle_genre_query db g top).2)
  | .year y => (.ok (handle_year_query db y).1, (handle_year_query db y).2)
  | .generic => standard_query_processing db llm query

/-- The outer catch-all message of `query_movie_graph` (line 79). -/
def encounteredErrorMsg (e : Str) : Str :=
  strL "I encountered an error while processing your request: " ++ e ++
    strL ". Could you try rephrasing your question?"

/-- `query_movie_graph` (`chat_agent.py` lines 57-79): process the query,
reformat the handler text conversationally with a second model call, and
catch every exception into a user-facing message.  The function is total:
for every oracle behaviour it returns a message string, never an
exception. -/
def query_movie_graph (db : Db) (llm : Llm) (query : Str) : Str × List Stage :=
  match text_to_aql_to_text db llm query with
  | (.error e, log) => (encounteredErrorMsg e, log)
  | (.ok resp, log) =>
    match llm.invoke (conversationalPrompt query resp) with
    | .error e => (encounteredErrorMsg e, log)
    | .ok text => (text, log)

end Chat

/-- A database oracle whose every query succeeds with zero rows. -/
def dbEmpty : Chat.Db :=
  { findMovieLike := fun _ => .ok [], findMovieFirstWord := fun _ => .ok [],
    similarMovies := fun _ => .ok [], movieGenres := fun _ => .ok [],
    genreSimilar := fun _ _ => .ok [], genreTop := fun _ => .ok [],
    genrePopular := fun _ => .ok [], yearQuery := fun _ _ => .ok [],
    yearRelaxed := fun _ _ => .ok [], execAql := fun _ => .ok [],
    simplePopular := fun _ => .ok [], simpleGenres := fun _ => .ok [] }

/-- A model oracle that always answers with a fixed text. -/
def llmOk : Chat.Llm :=
  { invoke := fun _ => .ok (strL "FOR m IN MovieLens_node RETURN m.title") }

/-! ## Theorems for claims C1 and C8 -/

/-- C1: the Intent Router dispatches by fixed priority: whenever a
similarity keyword ("similar", "like", "related") occurs in the
lower-cased query and the fixed alias table detects a known movie title,
the router chooses the similarity handler (with the first detected title)
before the genre, year and generic branches; in particular the query
"movies similar to Titanic from the 1990s" dispatches to the similarity
handler even though a year token is present. -/

theorem router_similarity_priority :
    (∀ q : Str, simKeywords.any (fun w => containsSub (lowerStr q) w) = true →
        extract_movie_titles q ≠ [] →
        route q = Intent.similarity ((extract_movie_titles q).headD [])) ∧
    route (strL "movies similar to Titanic from the 1990s") =
      Intent.similarity (strL "titanic") := by
  constructor
  · intro q hkw hts
    have hne : (extract_movie_titles q).isEmpty = false := by
      cases h : extract_movie_titles q with
      | nil => exact absurd h hts
      | cons a l => rfl
    simp [route, hkw, hne]
  · decide

/-- Witness for C1: the universally quantified part applied to a concrete
query containing the keyword "like" and the known title "inception". -/
theorem router_similarity_priority_witness :
    route (strL "find movies like Inception") =
      Intent.similarity ((extract_movie_titles (strL "find movies like Inception")).headD []) :=
  router_similarity_priority.1 (strL "find movies like Inception") (by decide) (by decide)

/-- C8: year-token parsing in `handle_year_query` maps every 4-digit token
to a single-year range and every decade token of the regex (`19\d0s` or
`20\d0s`) to a range of exactly ten years starting at the decade boundary;
in particular "1990s" yields [1990, 1999] and "2021" yields [2021, 2021]. -/
theorem year_token_parsing :
    parseYearRange (strL "1990s") = some (1990, 1999) ∧
    parseYearRange (strL "2021") = some (2021, 2021) ∧
    (∀ c1 c2 c3 c4 : Char, c1.isDigit → c2.isDigit → c3.isDigit → c4.isDigit →
      ∃ y, parseYearRange [c1, c2, c3, c4] = some (y, y)) ∧
    (∀ d : Char, d.isDigit →
      ∃ b, parseYearRange ['1', '9', d, '0', 's'] = some (b, b + 9) ∧ b % 10 = 0) ∧
    (∀ d : Char, d.isDigit →
      ∃ b, parseYearRange ['2', '0', d, '0', 's'] = some (b, b + 9) ∧ b % 10 = 0) := by
  refine ⟨by decide, by decide, ?_, ?_, ?_⟩
  · intro c1 c2 c3 c4 h1 h2 h3 h4
    refine ⟨(((c1.toNat - 48) * 10 + (c2.toNat - 48)) * 10 + (c3.toNat - 48)) * 10
      + (c4.toNat - 48), ?_⟩
    simp [parseYearRange, parseNat?, h1, h2, h3, h4]
  · intro d hd
    refine ⟨1900 + 10 * (d.toNat - 48), ?_, by omega⟩
    have hp : parseNat? ['1', '9', d, '0'] = some (1900 + 10 * (d.toNat - 48)) := by
      simp [parseNat?, hd]
      omega
    simp [parseYearRange, List.take, hp]
  · intro d hd
    refine ⟨2000 + 10 * (d.toNat - 48), ?_, by omega⟩
    have hp : parseNat? ['2', '0', d, '0'] = some (2000 + 10 * (d.toNat - 48)) := by
      simp [parseNat?, hd]
      omega
    simp [parseYearRange, List.take, hp]

/-- Witness for C8: the quantified parts applied at the concrete tokens
"2045", "1970s" and "2030s". -/
theorem year_token_parsing_witness :
    (∃ y, parseYearRange (strL "2045") = some (y, y)) ∧
    (∃ b, parseYearRange (strL "1970s") = some (b, b + 9) ∧ b % 10 = 0) ∧
    (∃ b, parseYearRange (strL "2030s") = some (b, b + 9) ∧ b % 10 = 0) :=
  ⟨year_token_parsing.2.2.1 '2' '0' '4' '5' (by decide) (by decide) (by decide) (by decide),
   year_token_parsing.2.2.2.1 '7' (by decide),
   year_token_parsing.2.2.2.2 '3' (by decide)⟩

/-! ## Theorems for claims C2 and C7 -/

/-- Helper for C7: the genre-overlap recommendation list is the image of a
list of candidate rows sorted by `rankRel` (similarity descending, then
popularity descending with `null` popularity last). -/

theorem sorted_genre_output (db : GraphDb) (mid : Str) (lim : Nat) :
    ∃ cs : List GenreCand, List.Sorted rankRel cs ∧
      get_recommendations_by_genre db mid lim = cs.map fmtGenreRec := by
  unfold get_recommendations_by_genre
  split
  · exact ⟨[], List.sorted_nil, rfl⟩
  · split
    · exact ⟨[], List.sorted_nil, rfl⟩
    · refine ⟨(List.insertionSort rankRel
        (genreCands db mid (belongsGenreIds db mid))).take lim, ?_, rfl⟩
      exact (List.sorted_insertionSort rankRel _).sublist (List.take_sublist _ _)

/-- Helper for C7: every recommendation list produced by
`find_similar_movies` (either path) has non-increasing similarity. -/
theorem rec_similarity_descending (db : GraphDb) (movie_id : Str) (threshold : ℚ)
    (limit : Nat) :
    List.Sorted (fun r s : MovieRec => s.similarity ≤ r.similarity)
      (find_similar_movies db movie_id threshold limit) := by
  unfold find_similar_movies
  split
  · exact List.sorted_nil
  · split
    · obtain ⟨cs, hs, he⟩ := sorted_genre_output db _ limit
      rw [he]
      exact hs.map _ (fun a b hab => by
        rcases hab with h | ⟨h, _⟩
        · exact le_of_lt h
        · exact le_of_eq h.symm)
    · refine List.Pairwise.map _ (fun a b hab => hab) ?_
      exact ((List.sorted_insertionSort simDescRel _)).sublist (List.take_sublist _ _)

/-- C2 (amended): every entry of the genre-overlap recommendation list
scores a candidate movie as `|common genres|` divided by the SUM of the
two genre-list lengths (AQL `UNION` concatenates and counts shared genres
twice), the score lies in [0,1], and entries below the 0.3 floor are
excluded. -/
theorem genre_similarity_ratio_bounds_floor (db : GraphDb) (movie_id : Str)
    (limit : Nat) (r : MovieRec)
    (hr : r ∈ get_recommendations_by_genre db movie_id limit) :
    ∃ m : RNode, m ∈ db.nodes ∧ r.id = m._id ∧
      r.similarity =
        (((belongsGenreIds db m._id).filter
            (fun g => (belongsGenreIds db movie_id).contains g)).length : ℚ) /
          (((belongsGenreIds db m._id).length +
            (belongsGenreIds db movie_id).length : Nat) : ℚ) ∧
      0 ≤ r.similarity ∧ r.similarity ≤ 1 ∧ 3 / 10 ≤ r.similarity := by
  unfold get_recommendations_by_genre at hr
  split at hr
  · simp at hr
  · split at hr
    · simp at hr
    · rw [List.mem_map] at hr
      obtain ⟨c, hc, hrc⟩ := hr
      have hc2 : c ∈ genreCands db movie_id (belongsGenreIds db movie_id) :=
        (List.mem_insertionSort rankRel).1 (List.mem_of_mem_take hc)
      unfold genreCands at hc2
      rw [List.mem_filterMap] at hc2
      obtain ⟨m, hm, hfm⟩ := hc2
      split at hfm
      · dsimp only at hfm
        split at hfm
        · split at hfm
          · rename_i hcommon hfloor
            rw [Option.some.injEq] at hfm
            subst hfm
            subst hrc
            refine ⟨m, hm, rfl, rfl, ?_, ?_, hfloor⟩
            · exact div_nonneg (Nat.cast_nonneg _) (Nat.cast_nonneg _)
            · have h1 : ((belongsGenreIds db m._id).filter
                  (fun g => (belongsGenreIds db movie_id).contains g)).length ≤
                    (belongsGenreIds db m._id).length := List.length_filter_le _ _
              have h2 : (0 : Nat) < (belongsGenreIds db m._id).length +
                  (belongsGenreIds db movie_id).length := by omega
              simp only [fmtGenreRec]
              rw [div_le_one (by exact_mod_cast h2)]
              exact_mod_cast le_trans h1 (Nat.le_add_right _ _)
          · simp at hfm
        · simp at hfm
      · simp at hfm

/-- Counterexample for C2 as stated: with source and candidate both having
exactly the genre set {genre_1}, the Jaccard score over the genre SETS is
1, but the code's genre-overlap path scores the candidate 1/2 (the shared
genre is counted twice in the denominator because AQL `UNION` does not
deduplicate), so the computed similarity is not
`|intersection| / |union of both sets|`. -/
theorem genre_similarity_not_jaccard_counterexample :
    (get_recommendations_by_genre exDb2 (strL "movie_1") 10).map
        (fun r => (r.id, r.similarity)) = [(strL "movie_2", 1 / 2)] ∧
    jaccardSpec (belongsGenreIds exDb2 (strL "movie_2"))
        (belongsGenreIds exDb2 (strL "movie_1")) = 1 ∧
    ((1 : ℚ) / 2) ≠ 1 := by
  refine ⟨by decide, by decide, by norm_num⟩

/-- Witness for C2: the amended theorem applied to the entry the
genre-overlap path produces on `exDb2`. -/
theorem genre_similarity_ratio_bounds_floor_witness :
    ∃ m : RNode, m ∈ exDb2.nodes ∧
      (strL "movie_2") = m._id ∧
      (1 : ℚ) / 2 =
        (((belongsGenreIds exDb2 m._id).filter
            (fun g => (belongsGenreIds exDb2 (strL "movie_1")).contains g)).length : ℚ) /
          (((belongsGenreIds exDb2 m._id).length +
            (belongsGenreIds exDb2 (strL "movie_1")).length : Nat) : ℚ) ∧
      (0 : ℚ) ≤ 1 / 2 ∧ (1 : ℚ) / 2 ≤ 1 ∧ (3 : ℚ) / 10 ≤ 1 / 2 :=
  genre_similarity_ratio_bounds_floor exDb2 (strL "movie_1") 10
    { id := strL "movie_2", original_id := none, title := strL "Unknown",
      year := none, similarity := 1 / 2, common_genre_count := some 1,
      reason := strL "Shares 1 genres" }
    (by decide)

/-- C7 (amended): every recommendation list of `find_similar_movies` is
sorted by descending similarity, and the genre-overlap path is moreover
the image of candidate rows sorted by descending similarity with ties
broken by descending popularity (`rankRel`); the direct-similarity path
sorts by similarity only. -/
theorem recommendation_sorting :
    (∀ (db : GraphDb) (movie_id : Str) (threshold : ℚ) (limit : Nat),
      List.Sorted (fun r s : MovieRec => s.similarity ≤ r.similarity)
        (find_similar_movies db movie_id threshold limit)) ∧
    (∀ (db : GraphDb) (movie_id : Str) (limit : Nat),
      ∃ cs : List GenreCand, List.Sorted rankRel cs ∧
        get_recommendations_by_genre db movie_id limit = cs.map fmtGenreRec) :=
  ⟨rec_similarity_descending, sorted_genre_output⟩

/-- Counterexample for C7 as stated: the direct-similarity query sorts by
`e.similarity DESC` only, so two recommendations tied at similarity 1/2
come out in traversal order — the movie with popularity 1 precedes the
movie with popularity 9 — and the tie is NOT broken by descending
popularity. -/
theorem direct_similarity_tie_order_counterexample :
    (find_similar_movies exDb7 (strL "1") (3 / 10) 10).map (fun r => r.id) =
      [strL "movie_2", strL "movie_3"] ∧
    (find_similar_movies exDb7 (strL "1") (3 / 10) 10).map (fun r => r.similarity) =
      [1 / 2, 1 / 2] ∧
    (nodeById exDb7 (strL "movie_2")).bind (fun n => n.popularity) = some 1 ∧
    (nodeById exDb7 (strL "movie_3")).bind (fun n => n.popularity) = some 9 ∧
    (1 : ℚ) < 9 := by
  refine ⟨by decide, by decide, by decide, by decide, by norm_num⟩

/-- Membership in a deduplicated list implies membership in the original
list. -/
theorem mem_dedupFirstAux {α : Type} [BEq α] {a : α} :
    ∀ {seen l : List α}, a ∈ dedupFirstAux seen l → a ∈ l := by
  intro seen l
  induction l generalizing seen with
  | nil => intro h; exact absurd h (by simp [dedupFirstAux])
  | cons b t ih =>
    intro h
    unfold dedupFirstAux at h
    split at h
    · exact List.mem_cons_of_mem _ (ih h)
    · rw [List.mem_cons] at h
      rcases h with rfl | h
      · exact List.mem_cons_self _ _
      · exact List.mem_cons_of_mem _ (ih h)

/-- Every emission of the traversal is a database node reached at a path
length between `d + 1` and `d + fuel`. -/
theorem walk_spec (db : GraphDb) :
    ∀ (f : Nat) (used : List REdge) (v : Str) (d : Nat) (x : RNode × Nat × REdge),
      x ∈ walk db used v d f →
      x.1 ∈ db.nodes ∧ d + 1 ≤ x.2.1 ∧ x.2.1 ≤ d + f := by
  intro f
  induction f with
  | zero => intro used v d x h; exact absurd h (by simp [walk])
  | succ f ih =>
    intro used v d x h
    unfold walk at h
    rw [List.mem_flatMap] at h
    obtain ⟨e, hedb, he⟩ := h
    by_cases hu : used.contains e
    · rw [if_pos hu] at he
      exact absurd he (by simp)
    · rw [if_neg hu] at he
      rcases hadj : adjacentEnd v e with _ | w <;> rw [hadj] at he <;> dsimp only at he
      · exact absurd he (by simp)
      · rcases hn : nodeById db w with _ | n <;> rw [hn] at he <;> dsimp only at he
        · exact absurd he (by simp)
        · rw [List.mem_cons] at he
          rcases he with rfl | he
          · exact ⟨List.mem_of_find?_eq_some hn, le_refl _,
              by show d + 1 ≤ d + (f + 1); omega⟩
          · obtain ⟨h1, h2, h3⟩ := ih (e :: used) w (d + 1) x he
            exact ⟨h1, by omega, by omega⟩

/-- Every non-central entry of the visualisation node list is a database
node formatted with a traversal distance between 1 and the depth. -/
theorem trav_entry_spec (db : GraphDb) (cid : Str) (depth : Nat) (v : ViewNode)
    (hv : v ∈ (dedupFirst ((walk db [] cid 0 depth).map
      (fun t => (t.1, t.2.1)))).map fmtTravNode) :
    ∃ (n : RNode) (d : Nat), n ∈ db.nodes ∧ v = fmtTravNode (n, d) ∧
      1 ≤ d ∧ d ≤ depth := by
  rw [List.mem_map] at hv
  obtain ⟨p, hp, rfl⟩ := hv
  have hp2 := mem_dedupFirstAux hp
  rw [List.mem_map] at hp2
  obtain ⟨t, ht, rfl⟩ := hp2
  obtain ⟨h1, h2, h3⟩ := walk_spec db depth [] cid 0 t ht
  exact ⟨t.1, t.2.1, h1, rfl, by omega, by omega⟩

/-! ## Theorems for claims C5, C6, C9 and C10 -/

/-- C5 (amended): for a resolvable centre, the node list starts with the
central entry (group "central", no distance); provided no database node
has the literal type "central", it is the only entry with group
"central"; and every other entry is a database node carrying a group
equal to its type and the length of a traversal path that reached it
(between 1 and the depth) — the same node may appear once per distinct
(node, distance) pair, so the annotation is a path length, not the
unique hop distance. -/

theorem graph_view_shape (db : GraphDb) (movie_id : Str) (depth : Nat) (central : RNode)
    (hc : findMovie db (normalizeMovieId movie_id) = some central)
    (ht : ∀ n ∈ db.nodes, n.type ≠ some (strL "central")) :
    (get_graph_data db movie_id depth).nodes.head? = some (centralViewNode central) ∧
    ((get_graph_data db movie_id depth).nodes.filter
        (fun v => v.group == strL "central")).length = 1 ∧
    ∀ v ∈ (get_graph_data db movie_id depth).nodes.tail,
      ∃ (n : RNode) (d : Nat), n ∈ db.nodes ∧ v = fmtTravNode (n, d) ∧
        v.group = n.type.getD (strL "unknown") ∧ v.distance = some d ∧
        1 ≤ d ∧ d ≤ depth := by
  unfold get_graph_data
  rw [hc]
  dsimp only
  refine ⟨rfl, ?_, ?_⟩
  · rw [List.filter_cons]
    have hcen : ((centralViewNode central).group == strL "central") = true := by
      simp [centralViewNode]
    rw [if_pos hcen, List.length_cons]
    have hnil : ((dedupFirst ((walk db [] central._id 0 depth).map
        (fun t => (t.1, t.2.1)))).map fmtTravNode).filter
          (fun v => v.group == strL "central") = [] := by
      rw [List.filter_eq_nil_iff]
      intro v hv
      obtain ⟨n, d, hmem, rfl, _, _⟩ := trav_entry_spec db central._id depth v hv
      have hgr : (fmtTravNode (n, d)).group = n.type.getD (strL "unknown") := rfl
      rw [hgr]
      rcases htyp : n.type with _ | t
      · decide
      · have : t ≠ strL "central" := by
          intro hcontra
          exact ht n hmem (by rw [htyp, hcontra])
        simpa using this
    rw [hnil]
    rfl
  · intro v hv
    obtain ⟨n, d, hmem, rfl, hd1, hd2⟩ := trav_entry_spec db central._id depth v hv
    exact ⟨n, d, hmem, rfl, rfl, rfl, hd1, hd2⟩

/-- Counterexample for C5 as stated: the traversal returns `DISTINCT
{node, distance}` pairs, so node `movie_A` appears twice, once with
distance 1 and once with distance 2; the two annotations differ, so the
node list does not annotate every non-central node with its (unique)
hop-distance from the centre. -/
theorem graph_view_duplicate_distance_counterexample :
    (((get_graph_data exDb5 (strL "C") 2).nodes.filter
        (fun v => v.id == strL "movie_A")).map (fun v => v.distance)) =
      [some 1, some 2] ∧
    (some 1 : Option Nat) ≠ some 2 := by
  refine ⟨by decide, by decide⟩

/-- Witness for C5: the head of the node list on the concrete database
`exDb5` is the central entry. -/
theorem graph_view_shape_witness :
    (get_graph_data exDb5 (strL "C") 2).nodes.head? =
      some (centralViewNode { _id := strL "movie_C", type := some (strL "movie") }) :=
  (graph_view_shape exDb5 (strL "C") 2
    { _id := strL "movie_C", type := some (strL "movie") } (by decide) (by decide)).1

/-- C6: when neither the canonical nor the legacy id resolves the centre,
the graph view is the empty structure, not an error. -/
theorem unresolved_centre_empty_view (db : GraphDb) (movie_id : Str) (depth : Nat)
    (h : findMovie db (normalizeMovieId movie_id) = none) :
    get_graph_data db movie_id depth = { nodes := [], links := [] } := by
  unfold get_graph_data
  rw [h]

/-- Witness for C6: an empty database resolves no centre and yields the
empty view. -/
theorem unresolved_centre_empty_view_witness :
    get_graph_data { nodes := [], edges := [] } (strL "99") 2 =
      { nodes := [], links := [] } :=
  unresolved_centre_empty_view { nodes := [], edges := [] } (strL "99") 2 (by decide)

/-- C9 (amended): a depth in [1,3] is used exactly as given, and a depth
outside [1,3] is rejected with a 422 validation error — it is not
coerced into the interval. -/
theorem depth_validated_not_clamped (db : GraphDb) (movie_id : Str) (depth : Int) :
    (1 ≤ depth → depth ≤ 3 →
      get_movie_graph db movie_id depth =
        .ok (get_graph_data db movie_id depth.toNat)) ∧
    (depth < 1 ∨ 3 < depth →
      get_movie_graph db movie_id depth =
        .error 422 (strL "Input validation error: depth")) := by
  constructor
  · intro h1 h2
    unfold get_movie_graph
    rw [if_neg (by omega)]
  · intro h
    unfold get_movie_graph
    rw [if_pos h]

/-- Witness for C9: depth 2 is used as given, depth 7 is rejected. -/
theorem depth_validated_not_clamped_witness :
    get_movie_graph exDb5 (strL "C") 2 =
      .ok (get_graph_data exDb5 (strL "C") (2 : Int).toNat) ∧
    get_movie_graph exDb5 (strL "C") 7 =
      .error 422 (strL "Input validation error: depth") :=
  ⟨(depth_validated_not_clamped exDb5 (strL "C") 2).1 (by omega) (by omega),
   (depth_validated_not_clamped exDb5 (strL "C") 7).2 (by omega)⟩

/-- Counterexample for C9 as stated: depth 5 is not coerced into [1,3]
and traversed — the endpoint rejects the request with a 422 validation
error instead of, e.g., running the traversal at the clamped depth 3. -/
theorem depth_not_clamped_counterexample :
    get_movie_graph exDb5 (strL "C") 5 =
      .error 422 (strL "Input validation error: depth") ∧
    get_movie_graph exDb5 (strL "C") 5 ≠ .ok (get_graph_data exDb5 (strL "C") 3) := by
  refine ⟨by decide, by decide⟩

/-- C10: every link of the visualisation output derives its weight
totally from the edge payload: a `similar_to` edge carries its
similarity, defaulting to 0.5 when the field is absent; a `rated` edge
carries rating/5, the rating defaulting to 3 (weight 3/5 = 0.6) when the
field is absent; every other edge type weighs 1. -/
theorem link_weight_derivation (db : GraphDb) (movie_id : Str) (depth : Nat)
    (l : ViewLink) (hl : l ∈ (get_graph_data db movie_id depth).links) :
    ∃ e : REdge, l = fmtLink e ∧
      (e.type = some (strL "similar_to") → l.weight = e.similarity.getD (1 / 2)) ∧
      (e.type = some (strL "similar_to") → e.similarity = none → l.weight = 1 / 2) ∧
      (e.type = some (strL "rated") → l.weight = e.rating.getD 3 / 5) ∧
      (e.type = some (strL "rated") → e.rating = none → l.weight = 3 / 5) ∧
      (e.type ≠ some (strL "similar_to") → e.type ≠ some (strL "rated") →
        l.weight = 1) := by
  unfold get_graph_data at hl
  split at hl
  · simp at hl
  · dsimp only at hl
    rw [List.mem_map] at hl
    obtain ⟨e, he, rfl⟩ := hl
    have hrs : ((strL "rated") == strL "similar_to") = false := by decide
    have hrr : ((strL "rated") == strL "rated") = true := by decide
    refine ⟨e, rfl, ?_, ?_, ?_, ?_, ?_⟩
    · intro hty
      simp [fmtLink, linkWeight, hty]
    · intro hty hsim
      simp [fmtLink, linkWeight, hty, hsim]
    · intro hty
      simp [fmtLink, linkWeight, hty, hrs, hrr]
    · intro hty hrat
      simp [fmtLink, linkWeight, hty, hrs, hrr, hrat]
    · intro h1 h2
      rcases hty : e.type with _ | t
      · have ha : ((strL "unknown") == strL "similar_to") = false := by decide
        have hb : ((strL "unknown") == strL "rated") = false := by decide
        simp [fmtLink, linkWeight, hty, ha, hb]
      · have ha : (t == strL "similar_to") = false := by
          rw [beq_eq_false_iff_ne]
          intro hcontra
          exact h1 (by rw [hty, hcontra])
        have hb : (t == strL "rated") = false := by
          rw [beq_eq_false_iff_ne]
          intro hcontra
          exact h2 (by rw [hty, hcontra])
        simp [fmtLink, linkWeight, hty, ha, hb]

/-- Witness for C10: the theorem applied to the one link produced on
`exDb10`, whose `similar_to` edge lacks a similarity and therefore weighs
1/2. -/
theorem link_weight_derivation_witness :
    ∃ e : REdge,
      ({ source := strL "movie_1", target := strL "movie_2",
         type := strL "similar_to", weight := 1 / 2 } : ViewLink) = fmtLink e ∧
      (e.type = some (strL "similar_to") →
        ({ source := strL "movie_1", target := strL "movie_2",
           type := strL "similar_to", weight := 1 / 2 } : ViewLink).weight =
          e.similarity.getD (1 / 2)) ∧
      (e.type = some (strL "similar_to") → e.similarity = none →
        ({ source := strL "movie_1", target := strL "movie_2",
           type := strL "similar_to", weight := 1 / 2 } : ViewLink).weight = 1 / 2) ∧
      (e.type = some (strL "rated") →
        ({ source := strL "movie_1", target := strL "movie_2",
           type := strL "similar_to", weight := 1 / 2 } : ViewLink).weight =
          e.rating.getD 3 / 5) ∧
      (e.type = some (strL "rated") → e.rating = none →
        ({ source := strL "movie_1", target := strL "movie_2",
           type := strL "similar_to", weight := 1 / 2 } : ViewLink).weight = 3 / 5) ∧
      (e.type ≠ some (strL "similar_to") → e.type ≠ some (strL "rated") →
        ({ source := strL "movie_1", target := strL "movie_2",
           type := strL "similar_to", weight := 1 / 2 } : ViewLink).weight = 1) :=
  link_weight_derivation exDb10 (strL "1") 1
    { source := strL "movie_1", target := strL "movie_2",
      type := strL "similar_to", weight := 1 / 2 }
    (by decide)

/-- C4 (code bug): a path query whose context lacks `source` and `target`
is answered with HTTP 500, not a 4xx client error: the deliberate
`HTTPException(400, "Source and target nodes are required for path
analysis")` raised inside the `try` block is caught by the blanket
`except Exception` (HTTPException subclasses Exception) and re-raised as
`HTTPException(500, "Error running analytics: 400: ...")`. -/
theorem analytics_path_missing_context_500 :
    run_analytics oracleUnit
        { query := strL "shortest path between two movies", context := some {} } =
      .error 500 (strL
        "Error running analytics: 400: Source and target nodes are required for path analysis") := by
  decide

/-- The similarity handler runs its genre fallback at most once. -/
theorem hsim_log (db : Chat.Db) (t : Str) :
    (Chat.handle_similar_movies_query db t).2.length ≤ 1 := by
  unfold Chat.handle_similar_movies_query
  repeat' split <;> (try simp)

/-- The genre handler has no fallback stage. -/
theorem hgenre_log (db : Chat.Db) (g : Str) (top : Bool) :
    (Chat.handle_genre_query db g top).2 = [] := by
  unfold Chat.handle_genre_query
  repeat' split <;> (try simp)

/-- The year handler runs its relaxed retry at most once. -/
theorem hyear_log (db : Chat.Db) (y : Str) :
    (Chat.handle_year_query db y).2.length ≤ 1 := by
  unfold Chat.handle_year_query
  repeat' split <;> (try simp)

/-- The generic path runs the simplified-template fallback at most once. -/
theorem hstd_log (db : Chat.Db) (llm : Chat.Llm) (q : Str) :
    (Chat.standard_query_processing db llm q).2.length ≤ 1 := by
  unfold Chat.standard_query_processing
  repeat' split <;> (try simp)

/-- Exactly one handler runs per request, so the whole dispatch logs at
most one fallback stage. -/
theorem httt_log (db : Chat.Db) (llm : Chat.Llm) (q : Str) :
    (Chat.text_to_aql_to_text db llm q).2.length ≤ 1 := by
  unfold Chat.text_to_aql_to_text
  split
  · exact hsim_log db _
  · simp [hgenre_log]
  · exact hyear_log db _
  · exact hstd_log db llm q

/-- The outer catch preserves the log of the dispatched handler. -/
theorem chat_log (db : Chat.Db) (llm : Chat.Llm) (q : Str) :
    (Chat.query_movie_graph db llm q).2.length ≤ 1 := by
  have h := httt_log db llm q
  unfold Chat.query_movie_graph
  rcases he : Chat.text_to_aql_to_text db llm q with ⟨r, log⟩
  rw [he] at h
  rcases r with e | resp
  · exact h
  · dsimp only
    rcases hinv : llm.invoke (Chat.conversationalPrompt q resp) with e2 | t2 <;> exact h

/-- C3: the chat handler is total — `Chat.query_movie_graph` returns a
message string for EVERY oracle behaviour (all exceptions, modelled as
`Except.error` values of the database and model oracles, are caught) —
and each fallback stage is tried at most once: its stage log never holds
more than one entry.  Concretely, a query matching zero rows at every
stage terminates in a returned message having run the generic
simple-template fallback exactly once. -/
theorem chat_total_fallback_once :
    (∀ (db : Chat.Db) (llm : Chat.Llm) (query : Str),
      (Chat.query_movie_graph db llm query).2.length ≤ 1 ∧
      ∀ st : Chat.Stage, (Chat.query_movie_graph db llm query).2.count st ≤ 1) ∧
    Chat.query_movie_graph dbEmpty llmOk (strL "recommend me something unusual") =
      (strL "FOR m IN MovieLens_node RETURN m.title", [Chat.Stage.genericSimple]) := by
  constructor
  · intro db llm query
    refine ⟨chat_log db llm query, fun st => ?_⟩
    exact le_trans (List.count_le_length st _) (chat_log db llm query)
  · decide
